import Mathlib

/-!
Shallow embedding of the cgroup-reading core of `dmem.py` (a Docker memory
usage reporter).  The filesystem and the OS glob primitive are modelled as
an explicit state record `FS`; all Python functions of the core become pure
Lean functions of that state.  Python's `int()` base-10 string conversion,
`str.strip()`, `str.split()` and file line iteration are modelled faithfully
(optional sign, underscores between digits, whitespace runs as separators).
-/

/-- The whitespace set of Python's `str.strip()` / `str.split()`
(ASCII fragment: space, tab, newline, carriage return, vertical tab,
form feed). -/
def isPySpace (c : Char) : Bool :=
  c = ' ' || c = '\t' || c = '\n' || c = '\r' || c = '\x0b' || c = '\x0c'

/-- Python `str.strip()`: drop leading and trailing whitespace. -/
def pyStrip (s : String) : String :=
  String.mk (((s.toList.dropWhile isPySpace).reverse.dropWhile isPySpace).reverse)

/-- Worker for `pySplit`: accumulate the current token (reversed). -/
def pySplitAux : List Char → List Char → List String
  | [], cur => if cur.isEmpty then [] else [String.mk cur.reverse]
  | c :: rest, cur =>
    if isPySpace c then
      if cur.isEmpty then pySplitAux rest []
      else String.mk cur.reverse :: pySplitAux rest []
    else pySplitAux rest (c :: cur)

/-- Python `str.split()` with no argument: split on runs of whitespace,
discarding empty tokens. -/
def pySplit (s : String) : List String :=
  pySplitAux s.toList []

/-- Decimal value of an ASCII digit. -/
def digVal (c : Char) : Nat := c.toNat - '0'.toNat

/-- Digits of a Python base-10 numeral after the first digit: a digit, or a
single underscore that must be followed by a digit.  `none` models the
`ValueError` that `int()` raises on anything else. -/
def pyDigitsAux : List Char → Nat → Option Nat
  | [], acc => some acc
  | '_' :: c :: rest, acc =>
    if c.isDigit then pyDigitsAux rest (acc * 10 + digVal c) else none
  | ['_'], _ => none
  | c :: rest, acc =>
    if c.isDigit then pyDigitsAux rest (acc * 10 + digVal c) else none

/-- An unsigned Python base-10 numeral: one or more digits, single
underscores allowed between digits. -/
def pyParseDigits : List Char → Option Nat
  | [] => none
  | c :: rest => if c.isDigit then pyDigitsAux rest (digVal c) else none

/-- Python `int(s)` on a string, base 10: strip whitespace, optional single
`+`/`-` sign, then digits.  `none` models the raised `ValueError`. -/
def pyInt (s : String) : Option Int :=
  match (pyStrip s).toList with
  | '+' :: rest => (pyParseDigits rest).map Int.ofNat
  | '-' :: rest => (pyParseDigits rest).map (fun n => -(n : Int))
  | l => (pyParseDigits l).map Int.ofNat

/-- Worker for `pyLines`: split at every newline character. -/
def splitLinesAux : List Char → List Char → List String
  | [], cur => [String.mk cur.reverse]
  | '\n' :: rest, cur => String.mk cur.reverse :: splitLinesAux rest []
  | c :: rest, cur => splitLinesAux rest (c :: cur)

/-- File content as the list of lines Python's `for line in f` iterates over.
Splitting on a trailing newline yields one extra empty segment; an empty
segment has no tokens, so it is skipped by every consumer exactly as a
nonexistent line would be. -/
def pyLines (content : String) : List String :=
  splitLinesAux content.toList []

/-- `os.path.join(a, b)` for the fragment exercised here: an absolute second
component wins, otherwise a single separator is inserted when needed. -/
def pyJoin (a b : String) : String :=
  if b.toList.head? = some '/' then b
  else if a = "" then b
  else if a.toList.getLast? = some '/' then a ++ b
  else a ++ "/" ++ b

/-- The ambient operating-system state the program reads: `read` gives a
file's text content (`none` for any I/O failure — missing file, permission
denied, ...), `pathExists` is `os.path.exists`, and `globMatches` is the
match list `glob.glob(pattern, recursive=True)` returns for a pattern,
in traversal order. -/
structure FS where
  read : String → Option String
  pathExists : String → Bool
  globMatches : String → List String

/-- `read_cgroup_file` (dmem.py:62-74): read, strip, treat the literal
`max` as absent, otherwise parse with `int()`; any exception is caught and
yields `None`. -/
def read_cgroup_file (fs : FS) (path : String) : Option Int :=
  match fs.read path with
  | none => none
  | some content =>
    let c := pyStrip content
    if c = "max" then none
    else pyInt c

/-- Python dict assignment `d[k] = v`: overwrite in place if the key is
present, else append (insertion order preserved). -/
def dictSet : List (String × Int) → String → Int → List (String × Int)
  | [], k, v => [(k, v)]
  | (k', v') :: rest, k, v =>
    if k' = k then (k', v) :: rest else (k', v') :: dictSet rest k v

/-- Python `d.get(k)`: the value at the first matching key, else `None`. -/
def dictGet (d : List (String × Int)) (k : String) : Option Int :=
  (d.find? (fun p => p.1 = k)).map (fun p => p.2)

/-- `line.strip().split()` destructured when it has exactly two tokens
(dmem.py:82-84). -/
def lineKV (l : String) : Option (String × String) :=
  match pySplit (pyStrip l) with
  | [k, v] => some (k, v)
  | _ => none

/-- The loop body of `read_cgroup_stat_file` (dmem.py:81-85): on a
two-token line, `int(value)` either extends the dict or raises; the raise
escapes the `for` loop to the outer `except`, so the dict accumulated so
far is returned and the remaining lines are never processed. -/
def readStatGo : List String → List (String × Int) → List (String × Int)
  | [], acc => acc
  | l :: rest, acc =>
    match lineKV l with
    | some (k, v) =>
      match pyInt v with
      | some n => readStatGo rest (dictSet acc k n)
      | none => acc
    | none => readStatGo rest acc

/-- `read_cgroup_stat_file` (dmem.py:77-88): a failed open yields the empty
dict; otherwise the lines are folded by `readStatGo`. -/
def read_cgroup_stat_file (fs : FS) (path : String) : List (String × Int) :=
  match fs.read path with
  | none => []
  | some content => readStatGo (pyLines content) []

/-- Reference fold written from the spec's words for `readKeyedStats`
("malformed lines are silently skipped; `value` must parse as a base-10
integer or the line is skipped"): every line is processed, bad-value lines
are skipped rather than aborting. -/
def keyedStatsSpecFold : List String → List (String × Int) → List (String × Int)
  | [], acc => acc
  | l :: rest, acc =>
    match lineKV l with
    | some (k, v) =>
      match pyInt v with
      | some n => keyedStatsSpecFold rest (dictSet acc k n)
      | none => keyedStatsSpecFold rest acc
    | none => keyedStatsSpecFold rest acc

/-- A line with exactly two whitespace-separated tokens whose value token
does not parse as a base-10 integer — the kind of line that makes
`int(value)` raise inside the loop. -/
def badValueLine (l : String) : Bool :=
  match lineKV l with
  | some (_, v) => (pyInt v).isNone
  | none => false

/-- The normalized per-container record both collectors return
(dmem.py:100-109, 141-150): every field independently present or absent. -/
structure MemoryStats where
  ram : Option Int
  swap : Option Int
  limit : Option Int
  swaplimit : Option Int
  anon : Option Int
  file : Option Int
  shmem : Option Int
  rss : Option Int
deriving DecidableEq, Repr

/-- The all-absent record `{k: None for k in [...]}` (dmem.py:128). -/
def emptyStats : MemoryStats :=
  { ram := none, swap := none, limit := none, swaplimit := none,
    anon := none, file := none, shmem := none, rss := none }

/-- `get_cgroup_version` (dmem.py:53-59): 2 if the v2 probe file exists,
else 1. -/
def get_cgroup_version (fs : FS) : Nat :=
  if fs.pathExists "/sys/fs/cgroup/cgroup.controllers" then 2 else 1

/-- `get_memory_stats_v1` (dmem.py:91-109). -/
def get_memory_stats_v1 (fs : FS) (container_id : String) : MemoryStats :=
  let base_path := "/sys/fs/cgroup/memory/docker/" ++ container_id
  let mem := read_cgroup_file fs (pyJoin base_path "memory.usage_in_bytes")
  let memsw := read_cgroup_file fs (pyJoin base_path "memory.memsw.usage_in_bytes")
  let mem_limit := read_cgroup_file fs (pyJoin base_path "memory.limit_in_bytes")
  let memsw_limit := read_cgroup_file fs (pyJoin base_path "memory.memsw.limit_in_bytes")
  let swap := match mem, memsw with
    | some m, some w => some (w - m)
    | _, _ => none
  let swap_limit := match mem_limit, memsw_limit with
    | some ml, some wl => some (wl - ml)
    | _, _ => none
  let stat := read_cgroup_stat_file fs (pyJoin base_path "memory.stat")
  { ram := mem, swap := swap, limit := mem_limit, swaplimit := swap_limit,
    anon := dictGet stat "anon", file := dictGet stat "file",
    shmem := dictGet stat "shmem", rss := dictGet stat "rss" }

/-- `find_cgroup_path_v2` (dmem.py:112-122): the first `glob` match for
`/sys/fs/cgroup/**/docker-<id>.scope`, else `None`. -/
def find_cgroup_path_v2 (fs : FS) (container_id : String) : Option String :=
  (fs.globMatches ("/sys/fs/cgroup/**/docker-" ++ container_id ++ ".scope")).head?

/-- `get_memory_stats_v2` (dmem.py:125-150).  The Python guard is
`if not base_path`, which is also taken for an empty-string path, hence the
explicit second test. -/
def get_memory_stats_v2 (fs : FS) (container_id : String) : MemoryStats :=
  match find_cgroup_path_v2 fs container_id with
  | none => emptyStats
  | some base_path =>
    if base_path = "" then emptyStats
    else
      let mem := read_cgroup_file fs (pyJoin base_path "memory.current")
      let swap_path := pyJoin base_path "memory.swap.current"
      let swap := if fs.pathExists swap_path then read_cgroup_file fs swap_path else none
      let mem_limit := read_cgroup_file fs (pyJoin base_path "memory.max")
      let swap_limit_path := pyJoin base_path "memory.swap.max"
      let swap_limit :=
        if fs.pathExists swap_limit_path then read_cgroup_file fs swap_limit_path else none
      let stat := read_cgroup_stat_file fs (pyJoin base_path "memory.stat")
      { ram := mem, swap := swap, limit := mem_limit, swaplimit := swap_limit,
        anon := dictGet stat "anon", file := dictGet stat "file",
        shmem := dictGet stat "shmem", rss := dictGet stat "rss" }

/-- The version dispatch of the per-container loop
(dmem.py:261-264): v1 stats when the detected version is 1, v2 otherwise. -/
def collectStats (fs : FS) (version : Nat) (container_id : String) : MemoryStats :=
  if version = 1 then get_memory_stats_v1 fs container_id
  else get_memory_stats_v2 fs container_id

/-- A `{id, name}` pair as supplied by the container lister. -/
structure ContainerRef where
  id : String
  name : String
deriving DecidableEq, Repr

/-- The claim-relevant projection of a row built by the main loop
(dmem.py:258-282): the container name, the docker-style 12-character id
prefix (`container["id"][:12]`), and the stats record the formatted
columns are drawn from.  The `format_bytes` string rendering of the
values is presentation glue outside the core. -/
structure Row where
  container : String
  id : String
  stats : MemoryStats
deriving DecidableEq, Repr

/-- The per-container loop of `main` (dmem.py:258-282): one row per
container, in input order. -/
def buildRows (fs : FS) (version : Nat) (containers : List ContainerRef) : List Row :=
  containers.map (fun c =>
    { container := c.name, id := String.mk (c.id.toList.take 12),
      stats := collectStats fs version c.id })

/-- The present/absent pattern of a record — the shape the idempotence
property is about. -/
structure PresenceShape where
  ram : Bool
  swap : Bool
  limit : Bool
  swaplimit : Bool
  anon : Bool
  file : Bool
  shmem : Bool
  rss : Bool
deriving DecidableEq, Repr

/-- The presence pattern of a `MemoryStats`. -/
def presenceShape (s : MemoryStats) : PresenceShape :=
  { ram := s.ram.isSome, swap := s.swap.isSome, limit := s.limit.isSome,
    swaplimit := s.swaplimit.isSome, anon := s.anon.isSome,
    file := s.file.isSome, shmem := s.shmem.isSome, rss := s.rss.isSome }

/-- All present fields of a record are non-negative. -/
def statsNonNeg (s : MemoryStats) : Prop :=
  (∀ v, s.ram = some v → 0 ≤ v) ∧ (∀ v, s.swap = some v → 0 ≤ v) ∧
  (∀ v, s.limit = some v → 0 ≤ v) ∧ (∀ v, s.swaplimit = some v → 0 ≤ v) ∧
  (∀ v, s.anon = some v → 0 ≤ v) ∧ (∀ v, s.file = some v → 0 ≤ v) ∧
  (∀ v, s.shmem = some v → 0 ≤ v) ∧ (∀ v, s.rss = some v → 0 ≤ v)

/-- A filesystem on which every read fails, no path exists and no glob
pattern matches (e.g. a host with no cgroup filesystem mounted). -/
def fsNone : FS := ⟨fun _ => none, fun _ => false, fun _ => []⟩

/-- A v1 container filesystem where the memsw counter is smaller than the
ram counter (the race the spec's §9 mentions), for container id `c`. -/
def fsV1Neg : FS :=
  ⟨fun p =>
    if p = "/sys/fs/cgroup/memory/docker/c/memory.usage_in_bytes" then some "100"
    else if p = "/sys/fs/cgroup/memory/docker/c/memory.memsw.usage_in_bytes" then some "10"
    else none,
   fun _ => false, fun _ => []⟩

/-- A v1 container filesystem with the spec's worked example for container
id `c`: ram 104857600 bytes, memsw 157286400 bytes. -/
def fsRamSwap : FS :=
  ⟨fun p =>
    if p = "/sys/fs/cgroup/memory/docker/c/memory.usage_in_bytes" then some "104857600"
    else if p = "/sys/fs/cgroup/memory/docker/c/memory.memsw.usage_in_bytes" then some "157286400"
    else none,
   fun _ => false, fun _ => []⟩

/-- A filesystem holding a single scalar file whose content is the signed
numeral `-5`. -/
def fsNegScalar : FS :=
  ⟨fun p =>
    if p = "/sys/fs/cgroup/memory/docker/c/memory.usage_in_bytes" then some "-5" else none,
   fun _ => false, fun _ => []⟩

/-- A filesystem holding a single scalar file with content `" 42\n"`. -/
def fsScalar42 : FS :=
  ⟨fun p =>
    if p = "/sys/fs/cgroup/memory/docker/c/memory.usage_in_bytes" then some " 42\n" else none,
   fun _ => false, fun _ => []⟩

/-- A two-container input list with full-length ids. -/
def csPair : List ContainerRef :=
  [⟨"abc123def456789", "web"⟩, ⟨"def456abc123789", "db"⟩]

/-! ## Helper lemmas about the keyed-stat loop -/

/-- The abort-on-raise loop equals the spec's skip-and-continue fold applied
to the prefix of lines strictly before the first two-token bad-value line. -/
theorem readStatGo_eq_spec (ls : List String) :
    ∀ acc, readStatGo ls acc =
      keyedStatsSpecFold (ls.takeWhile (fun l => !badValueLine l)) acc := by
  induction ls with
  | nil => intro acc; rfl
  | cons l rest ih =>
    intro acc
    cases hkv : lineKV l with
    | none =>
      have hb : (!badValueLine l) = true := by simp [badValueLine, hkv]
      simp only [readStatGo, List.takeWhile_cons, hb, if_true, keyedStatsSpecFold, hkv]
      exact ih acc
    | some kv =>
      obtain ⟨k, v⟩ := kv
      cases hp : pyInt v with
      | none =>
        have hb : (!badValueLine l) = false := by simp [badValueLine, hkv, hp]
        simp only [readStatGo, List.takeWhile_cons, hb, if_false, keyedStatsSpecFold, hkv, hp]
      | some n =>
        have hb : (!badValueLine l) = true := by simp [badValueLine, hkv, hp]
        simp only [readStatGo, List.takeWhile_cons, hb, if_true, keyedStatsSpecFold, hkv, hp]
        exact ih (dictSet acc k n)

/-- `takeWhile` keeps a whole list of good elements. -/
theorem takeWhile_all {α : Type} (p : α → Bool) (ls : List α)
    (h : ∀ x ∈ ls, p x = true) : ls.takeWhile p = ls := by
  induction ls with
  | nil => rfl
  | cons a rest ih =>
    have ha : p a = true := h a (List.mem_cons_self a rest)
    simp only [List.takeWhile_cons, ha, if_true]
    rw [ih (fun x hx => h x (List.mem_cons_of_mem a hx))]

/-- `takeWhile` cuts exactly at the first failing element. -/
theorem takeWhile_append_cut {α : Type} (p : α → Bool) (ls1 ls2 : List α) (l : α)
    (h1 : ∀ x ∈ ls1, p x = true) (hl : p l = false) :
    (ls1 ++ l :: ls2).takeWhile p = ls1 := by
  induction ls1 with
  | nil => simp [List.takeWhile_cons, hl]
  | cons a rest ih =>
    have ha : p a = true := h1 a (List.mem_cons_self a rest)
    simp only [List.cons_append, List.takeWhile_cons, ha, if_true]
    rw [ih (fun x hx => h1 x (List.mem_cons_of_mem a hx))]

/-! ## Claims about `read_cgroup_stat_file` -/

/-- C1 (counterexample): on the file content `"a x\nb 2"` the first line has
exactly two tokens but an unparseable value, so the loop aborts and the
well-formed line `"b 2"` never reaches the mapping — parsing is *not*
independent of where malformed lines occur. -/
theorem read_cgroup_stat_file_aborts_after_bad_value :
    lineKV "b 2" = some ("b", "2") ∧ pyInt "2" = some 2 ∧
    read_cgroup_stat_file
      ⟨fun p => if p = "/sys/fs/cgroup/memory/docker/c/memory.stat"
                then some "a x\nb 2" else none,
       fun _ => false, fun _ => []⟩
      "/sys/fs/cgroup/memory/docker/c/memory.stat" = [] := by
  refine ⟨by decide, by decide, by decide⟩

/-- C1 (amended): provided no line of the file has exactly two tokens with an
unparseable value, `read_cgroup_stat_file` returns exactly the mapping the
spec describes: every two-token line contributes its parsed pair, lines with
any other number of tokens are skipped wherever they occur, and parsing
continues to the end of the file. -/
theorem read_cgroup_stat_file_eq_spec_of_no_bad_value (fs : FS) (path content : String)
    (hread : fs.read path = some content)
    (hclean : ∀ l ∈ pyLines content, badValueLine l = false) :
    read_cgroup_stat_file fs path = keyedStatsSpecFold (pyLines content) [] := by
  simp only [read_cgroup_stat_file, hread]
  rw [readStatGo_eq_spec,
    takeWhile_all (fun l => !badValueLine l) (pyLines content)
      (fun x hx => by simp [hclean x hx])]

/-- Witness for C1 (amended): a file with a one-token malformed line in the
middle still yields the pairs of both surrounding well-formed lines. -/
theorem read_cgroup_stat_file_eq_spec_witness :
    read_cgroup_stat_file
      ⟨fun p => if p = "/sys/fs/cgroup/memory/docker/c/memory.stat"
                then some "a 1\nmalformed\nc 3" else none,
       fun _ => false, fun _ => []⟩
      "/sys/fs/cgroup/memory/docker/c/memory.stat"
      = keyedStatsSpecFold (pyLines "a 1\nmalformed\nc 3") []
    ∧ keyedStatsSpecFold (pyLines "a 1\nmalformed\nc 3") [] = [("a", 1), ("c", 3)] := by
  refine ⟨read_cgroup_stat_file_eq_spec_of_no_bad_value _ _ "a 1\nmalformed\nc 3"
    (by decide) (by decide), by decide⟩

/-- C9 (counterexample): with content `"a 1\nb x\na 1"` the well-formed line
`"a 1"` occurs after the first bad-value line, yet its key/value pair is
present in the returned mapping (it was also accumulated before the bad
line), so "every well-formed line after the first bad-value line is absent
from the returned mapping" fails as stated. -/
theorem stat_line_after_bad_value_can_reappear :
    lineKV "a 1" = some ("a", "1") ∧ badValueLine "b x" = true ∧
    dictGet (read_cgroup_stat_file
      ⟨fun p => if p = "/sys/fs/cgroup/memory/docker/c/memory.stat"
                then some "a 1\nb x\na 1" else none,
       fun _ => false, fun _ => []⟩
      "/sys/fs/cgroup/memory/docker/c/memory.stat") "a" = some 1 := by
  refine ⟨by decide, by decide, by decide⟩

/-- C9 (amended): when the file's lines split as `ls1 ++ l :: ls2` with no
bad-value line in `ls1` and `l` a two-token bad-value line, the function
stops at `l` and returns exactly the dictionary accumulated over `ls1`; no
line at or after `l` contributes anything. -/
theorem read_cgroup_stat_file_stops_at_bad_value (fs : FS) (path content : String)
    (ls1 ls2 : List String) (l : String)
    (hread : fs.read path = some content)
    (hsplit : pyLines content = ls1 ++ l :: ls2)
    (hclean : ∀ x ∈ ls1, badValueLine x = false)
    (hbad : badValueLine l = true) :
    read_cgroup_stat_file fs path = readStatGo ls1 [] := by
  simp only [read_cgroup_stat_file, hread]
  rw [readStatGo_eq_spec, hsplit,
    takeWhile_append_cut (fun x => !badValueLine x) ls1 ls2 l
      (fun x hx => by simp [hclean x hx]) (by simp [hbad]),
    readStatGo_eq_spec,
    takeWhile_all (fun x => !badValueLine x) ls1 (fun x hx => by simp [hclean x hx])]

/-- Witness for C9 (amended): content `"a 1\nb x\nc 3"` yields only the
entry of the line before the bad-value line. -/
theorem read_cgroup_stat_file_stops_witness :
    read_cgroup_stat_file
      ⟨fun p => if p = "/sys/fs/cgroup/memory/docker/c/memory.stat"
                then some "a 1\nb x\nc 3" else none,
       fun _ => false, fun _ => []⟩
      "/sys/fs/cgroup/memory/docker/c/memory.stat" = readStatGo ["a 1"] []
    ∧ readStatGo ["a 1"] [] = [("a", 1)] := by
  refine ⟨read_cgroup_stat_file_stops_at_bad_value _ _ "a 1\nb x\nc 3"
    ["a 1"] ["c 3"] "b x" (by decide) (by decide) (by decide) (by decide), by decide⟩

/-! ## Field characterizations of the v1 collector -/

/-- The `ram` field is the raw `memory.usage_in_bytes` read. -/
theorem v1_ram_eq (fs : FS) (cid : String) :
    (get_memory_stats_v1 fs cid).ram =
      read_cgroup_file fs
        (pyJoin ("/sys/fs/cgroup/memory/docker/" ++ cid) "memory.usage_in_bytes") := rfl

/-- The `swap` field is the subtraction, present only when both reads are. -/
theorem v1_swap_eq (fs : FS) (cid : String) :
    (get_memory_stats_v1 fs cid).swap =
      match
        read_cgroup_file fs
          (pyJoin ("/sys/fs/cgroup/memory/docker/" ++ cid) "memory.usage_in_bytes"),
        read_cgroup_file fs
          (pyJoin ("/sys/fs/cgroup/memory/docker/" ++ cid) "memory.memsw.usage_in_bytes")
      with
      | some m, some w => some (w - m)
      | _, _ => none := rfl

/-- The `limit` field is the raw `memory.limit_in_bytes` read. -/
theorem v1_limit_eq (fs : FS) (cid : String) :
    (get_memory_stats_v1 fs cid).limit =
      read_cgroup_file fs
        (pyJoin ("/sys/fs/cgroup/memory/docker/" ++ cid) "memory.limit_in_bytes") := rfl

/-- The `swaplimit` field is the limits subtraction, present only when both
reads are. -/
theorem v1_swaplimit_eq (fs : FS) (cid : String) :
    (get_memory_stats_v1 fs cid).swaplimit =
      match
        read_cgroup_file fs
          (pyJoin ("/sys/fs/cgroup/memory/docker/" ++ cid) "memory.limit_in_bytes"),
        read_cgroup_file fs
          (pyJoin ("/sys/fs/cgroup/memory/docker/" ++ cid) "memory.memsw.limit_in_bytes")
      with
      | some ml, some wl => some (wl - ml)
      | _, _ => none := rfl

/-! ## C3: the v1 swap subtraction contract -/

/-- C3: in the v1 collector, `swap` equals `memsw - ram` exactly when both
reads are present and is absent when either is absent; `swaplimit` relates
to the two limit reads the same way. -/
theorem v1_swap_subtraction (fs : FS) (cid : String) :
    (∀ m w,
      read_cgroup_file fs
        (pyJoin ("/sys/fs/cgroup/memory/docker/" ++ cid) "memory.usage_in_bytes") = some m →
      read_cgroup_file fs
        (pyJoin ("/sys/fs/cgroup/memory/docker/" ++ cid) "memory.memsw.usage_in_bytes") = some w →
      (get_memory_stats_v1 fs cid).swap = some (w - m)) ∧
    ((read_cgroup_file fs
        (pyJoin ("/sys/fs/cgroup/memory/docker/" ++ cid) "memory.usage_in_bytes") = none ∨
      read_cgroup_file fs
        (pyJoin ("/sys/fs/cgroup/memory/docker/" ++ cid) "memory.memsw.usage_in_bytes") = none) →
      (get_memory_stats_v1 fs cid).swap = none) ∧
    (∀ ml wl,
      read_cgroup_file fs
        (pyJoin ("/sys/fs/cgroup/memory/docker/" ++ cid) "memory.limit_in_bytes") = some ml →
      read_cgroup_file fs
        (pyJoin ("/sys/fs/cgroup/memory/docker/" ++ cid) "memory.memsw.limit_in_bytes") = some wl →
      (get_memory_stats_v1 fs cid).swaplimit = some (wl - ml)) ∧
    ((read_cgroup_file fs
        (pyJoin ("/sys/fs/cgroup/memory/docker/" ++ cid) "memory.limit_in_bytes") = none ∨
      read_cgroup_file fs
        (pyJoin ("/sys/fs/cgroup/memory/docker/" ++ cid) "memory.memsw.limit_in_bytes") = none) →
      (get_memory_stats_v1 fs cid).swaplimit = none) := by
  refine ⟨fun m w hm hw => ?_, fun h => ?_, fun ml wl hml hwl => ?_, fun h => ?_⟩
  · rw [v1_swap_eq, hm, hw]
  · rw [v1_swap_eq]
    rcases h with h | h
    · rw [h]
    · rw [h]
      cases read_cgroup_file fs
        (pyJoin ("/sys/fs/cgroup/memory/docker/" ++ cid) "memory.usage_in_bytes") <;> rfl
  · rw [v1_swaplimit_eq, hml, hwl]
  · rw [v1_swaplimit_eq]
    rcases h with h | h
    · rw [h]
    · rw [h]
      cases read_cgroup_file fs
        (pyJoin ("/sys/fs/cgroup/memory/docker/" ++ cid) "memory.limit_in_bytes") <;> rfl

/-- Witness for C3: the spec's worked example — ram 104857600 and memsw
157286400 yield swap 52428800. -/
theorem v1_swap_subtraction_witness :
    (get_memory_stats_v1 fsRamSwap "c").swap = some 52428800 := by
  have h := (v1_swap_subtraction fsRamSwap "c").1 104857600 157286400 (by decide) (by decide)
  exact h.trans (by decide)

/-! ## Field characterizations of the v2 collector -/

/-- Failed scope resolution yields the all-absent record. -/
theorem v2_none_eq (fs : FS) (cid : String)
    (hf : find_cgroup_path_v2 fs cid = none) :
    get_memory_stats_v2 fs cid = emptyStats := by
  unfold get_memory_stats_v2
  rw [hf]

/-- An empty-string scope path is falsy in Python and also yields the
all-absent record. -/
theorem v2_empty_eq (fs : FS) (cid : String)
    (hf : find_cgroup_path_v2 fs cid = some "") :
    get_memory_stats_v2 fs cid = emptyStats := by
  unfold get_memory_stats_v2
  rw [hf]
  simp

/-- With a resolved non-empty scope path the v2 record is built from the
five per-scope reads. -/
theorem v2_some_eq (fs : FS) (cid base : String)
    (hf : find_cgroup_path_v2 fs cid = some base) (hne : base ≠ "") :
    get_memory_stats_v2 fs cid =
      { ram := read_cgroup_file fs (pyJoin base "memory.current"),
        swap := if fs.pathExists (pyJoin base "memory.swap.current")
                then read_cgroup_file fs (pyJoin base "memory.swap.current") else none,
        limit := read_cgroup_file fs (pyJoin base "memory.max"),
        swaplimit := if fs.pathExists (pyJoin base "memory.swap.max")
                     then read_cgroup_file fs (pyJoin base "memory.swap.max") else none,
        anon := dictGet (read_cgroup_stat_file fs (pyJoin base "memory.stat")) "anon",
        file := dictGet (read_cgroup_stat_file fs (pyJoin base "memory.stat")) "file",
        shmem := dictGet (read_cgroup_stat_file fs (pyJoin base "memory.stat")) "shmem",
        rss := dictGet (read_cgroup_stat_file fs (pyJoin base "memory.stat")) "rss" } := by
  unfold get_memory_stats_v2
  rw [hf]
  simp [hne]

/-- The all-absent record trivially has non-negative present fields. -/
theorem statsNonNeg_empty : statsNonNeg emptyStats := by
  refine ⟨?_, ?_, ?_, ?_, ?_, ?_, ?_, ?_⟩ <;> intro v h <;> simp [emptyStats] at h

/-! ## C2: sign of the fields -/

/-- C2 (counterexample): when the memsw counter reads smaller than the ram
counter, the v1 path of the collector produces a *negative* present `swap`
field, so "no present field is ever negative" fails. -/
theorem collect_v1_negative_swap :
    (collectStats fsV1Neg 1 "c").swap = some (-90) ∧ (-90 : Int) < 0 := by
  exact ⟨by decide, by decide⟩

/-- C2 (amended): every present field is an integer that may in general be
negative; if every scalar read returns a non-negative value, every keyed
stat value is non-negative, and the v1 memsw reads dominate the
corresponding ram reads whenever both are present, then every present field
of the collector's record is non-negative (v1 and v2 alike). -/
theorem collect_nonneg_of_nonneg_reads (fs : FS) (version : Nat) (cid : String)
    (hscalar : ∀ p v, read_cgroup_file fs p = some v → 0 ≤ v)
    (hstat : ∀ p k v, dictGet (read_cgroup_stat_file fs p) k = some v → 0 ≤ v)
    (husage : ∀ m w,
      read_cgroup_file fs
        (pyJoin ("/sys/fs/cgroup/memory/docker/" ++ cid) "memory.usage_in_bytes") = some m →
      read_cgroup_file fs
        (pyJoin ("/sys/fs/cgroup/memory/docker/" ++ cid) "memory.memsw.usage_in_bytes") = some w →
      m ≤ w)
    (hlimits : ∀ ml wl,
      read_cgroup_file fs
        (pyJoin ("/sys/fs/cgroup/memory/docker/" ++ cid) "memory.limit_in_bytes") = some ml →
      read_cgroup_file fs
        (pyJoin ("/sys/fs/cgroup/memory/docker/" ++ cid) "memory.memsw.limit_in_bytes") = some wl →
      ml ≤ wl) :
    statsNonNeg (collectStats fs version cid) := by
  unfold collectStats
  split
  · -- v1 path
    refine ⟨fun v h => hscalar _ v (v1_ram_eq fs cid ▸ h), fun v h => ?_,
      fun v h => hscalar _ v (v1_limit_eq fs cid ▸ h), fun v h => ?_,
      fun v h => hstat _ _ v h, fun v h => hstat _ _ v h,
      fun v h => hstat _ _ v h, fun v h => hstat _ _ v h⟩
    · rw [v1_swap_eq] at h
      rcases hm : read_cgroup_file fs
        (pyJoin ("/sys/fs/cgroup/memory/docker/" ++ cid) "memory.usage_in_bytes") with _ | m <;>
        rcases hw : read_cgroup_file fs
          (pyJoin ("/sys/fs/cgroup/memory/docker/" ++ cid) "memory.memsw.usage_in_bytes") with _ | w <;>
        rw [hm, hw] at h <;> simp only [Option.some.injEq] at h <;> try exact absurd h (by simp)
      have := husage m w hm hw
      omega
    · rw [v1_swaplimit_eq] at h
      rcases hm : read_cgroup_file fs
        (pyJoin ("/sys/fs/cgroup/memory/docker/" ++ cid) "memory.limit_in_bytes") with _ | ml <;>
        rcases hw : read_cgroup_file fs
          (pyJoin ("/sys/fs/cgroup/memory/docker/" ++ cid) "memory.memsw.limit_in_bytes") with _ | wl <;>
        rw [hm, hw] at h <;> simp only [Option.some.injEq] at h <;> try exact absurd h (by simp)
      have := hlimits ml wl hm hw
      omega
  · -- v2 path
    rcases hf : find_cgroup_path_v2 fs cid with _ | base
    · rw [v2_none_eq fs cid hf]
      exact statsNonNeg_empty
    · by_cases hb : base = ""
      · subst hb
        rw [v2_empty_eq fs cid hf]
        exact statsNonNeg_empty
      · rw [v2_some_eq fs cid base hf hb]
        refine ⟨fun v h => hscalar _ v h, fun v h => ?_,
          fun v h => hscalar _ v h, fun v h => ?_,
          fun v h => hstat _ _ v h, fun v h => hstat _ _ v h,
          fun v h => hstat _ _ v h, fun v h => hstat _ _ v h⟩
        · by_cases he : fs.pathExists (pyJoin base "memory.swap.current") = true
          · rw [if_pos he] at h
            exact hscalar _ v h
          · rw [if_neg he] at h
            exact absurd h (by simp)
        · by_cases he : fs.pathExists (pyJoin base "memory.swap.max") = true
          · rw [if_pos he] at h
            exact hscalar _ v h
          · rw [if_neg he] at h
            exact absurd h (by simp)

/-- Witness for C2 (amended): on the v1 example filesystem the hypotheses
are genuinely exercised — the ram and memsw counters read 104857600 and
157286400, so the scalar-non-negativity and memsw-dominance assumptions
must actually be established — and the resulting record has present,
non-negative `ram` and `swap` fields. -/
theorem collect_nonneg_witness :
    statsNonNeg (collectStats fsRamSwap 1 "c") ∧
    (collectStats fsRamSwap 1 "c").ram = some 104857600 ∧
    (collectStats fsRamSwap 1 "c").swap = some 52428800 := by
  refine ⟨collect_nonneg_of_nonneg_reads fsRamSwap 1 "c" ?_ ?_ ?_ ?_,
    by decide, by decide⟩
  · intro p v h
    by_cases h1 : p = "/sys/fs/cgroup/memory/docker/c/memory.usage_in_bytes"
    · subst h1
      have e1 : read_cgroup_file fsRamSwap
          "/sys/fs/cgroup/memory/docker/c/memory.usage_in_bytes" = some 104857600 := by
        decide
      rw [e1] at h
      injection h with h'
      omega
    · by_cases h2 : p = "/sys/fs/cgroup/memory/docker/c/memory.memsw.usage_in_bytes"
      · subst h2
        have e2 : read_cgroup_file fsRamSwap
            "/sys/fs/cgroup/memory/docker/c/memory.memsw.usage_in_bytes" = some 157286400 := by
          decide
        rw [e2] at h
        injection h with h'
        omega
      · have e0 : read_cgroup_file fsRamSwap p = none := by
          simp [read_cgroup_file, fsRamSwap, h1, h2]
        rw [e0] at h
        cases h
  · intro p k v h
    by_cases h1 : p = "/sys/fs/cgroup/memory/docker/c/memory.usage_in_bytes"
    · subst h1
      have e1 : read_cgroup_stat_file fsRamSwap
          "/sys/fs/cgroup/memory/docker/c/memory.usage_in_bytes" = [] := by decide
      rw [e1] at h
      simp [dictGet] at h
    · by_cases h2 : p = "/sys/fs/cgroup/memory/docker/c/memory.memsw.usage_in_bytes"
      · subst h2
        have e2 : read_cgroup_stat_file fsRamSwap
            "/sys/fs/cgroup/memory/docker/c/memory.memsw.usage_in_bytes" = [] := by decide
        rw [e2] at h
        simp [dictGet] at h
      · have e0 : read_cgroup_stat_file fsRamSwap p = [] := by
          simp [read_cgroup_stat_file, fsRamSwap, h1, h2]
        rw [e0] at h
        simp [dictGet] at h
  · intro m w hm hw
    have e1 : read_cgroup_file fsRamSwap
        (pyJoin ("/sys/fs/cgroup/memory/docker/" ++ "c") "memory.usage_in_bytes") =
        some 104857600 := by decide
    have e2 : read_cgroup_file fsRamSwap
        (pyJoin ("/sys/fs/cgroup/memory/docker/" ++ "c") "memory.memsw.usage_in_bytes") =
        some 157286400 := by decide
    rw [e1] at hm
    rw [e2] at hw
    injection hm with hm'
    injection hw with hw'
    omega
  · intro ml wl hml _
    have e1 : read_cgroup_file fsRamSwap
        (pyJoin ("/sys/fs/cgroup/memory/docker/" ++ "c") "memory.limit_in_bytes") = none := by
      decide
    rw [e1] at hml
    cases hml

/-! ## C4: unresolvable v2 scope -/

/-- C4: if scope-path resolution finds no `docker-<id>.scope` directory, the
v2 collector returns a record with all eight fields absent (and, being a
total function, it returns rather than raises). -/
theorem v2_all_absent_of_no_scope (fs : FS) (cid : String)
    (hf : find_cgroup_path_v2 fs cid = none) :
    (get_memory_stats_v2 fs cid).ram = none ∧
    (get_memory_stats_v2 fs cid).swap = none ∧
    (get_memory_stats_v2 fs cid).limit = none ∧
    (get_memory_stats_v2 fs cid).swaplimit = none ∧
    (get_memory_stats_v2 fs cid).anon = none ∧
    (get_memory_stats_v2 fs cid).file = none ∧
    (get_memory_stats_v2 fs cid).shmem = none ∧
    (get_memory_stats_v2 fs cid).rss = none := by
  rw [v2_none_eq fs cid hf]
  exact ⟨rfl, rfl, rfl, rfl, rfl, rfl, rfl, rfl⟩

/-- Witness for C4: on a filesystem where the glob pattern matches nothing,
every field of the v2 record is absent. -/
theorem v2_all_absent_witness :
    (get_memory_stats_v2 fsNone "abc123def456789").ram = none ∧
    (get_memory_stats_v2 fsNone "abc123def456789").swap = none ∧
    (get_memory_stats_v2 fsNone "abc123def456789").limit = none ∧
    (get_memory_stats_v2 fsNone "abc123def456789").swaplimit = none ∧
    (get_memory_stats_v2 fsNone "abc123def456789").anon = none ∧
    (get_memory_stats_v2 fsNone "abc123def456789").file = none ∧
    (get_memory_stats_v2 fsNone "abc123def456789").shmem = none ∧
    (get_memory_stats_v2 fsNone "abc123def456789").rss = none :=
  v2_all_absent_of_no_scope fsNone "abc123def456789" rfl

/-! ## C5: the scalar reader's contract -/

/-- C5: `read_cgroup_file` returns the parsed integer when the trimmed
content is a valid base-10 numeral, absent for the literal `max`, absent on
any I/O failure, and absent on a parse failure; being total, it never
raises to its caller. -/
theorem read_cgroup_file_contract (fs : FS) (path : String) :
    (fs.read path = none → read_cgroup_file fs path = none) ∧
    (∀ content, fs.read path = some content → pyStrip content = "max" →
      read_cgroup_file fs path = none) ∧
    (∀ content v, fs.read path = some content → pyStrip content ≠ "max" →
      pyInt (pyStrip content) = some v → read_cgroup_file fs path = some v) ∧
    (∀ content, fs.read path = some content → pyStrip content ≠ "max" →
      pyInt (pyStrip content) = none → read_cgroup_file fs path = none) := by
  refine ⟨fun h => by simp [read_cgroup_file, h],
    fun c hc hm => by simp [read_cgroup_file, hc, hm],
    fun c v hc hm hp => by simp [read_cgroup_file, hc, hm, hp],
    fun c hc hm hp => by simp [read_cgroup_file, hc, hm, hp]⟩

/-- Witness for C5: a file whose content is `" 42\n"` reads as 42. -/
theorem read_cgroup_file_contract_witness :
    read_cgroup_file fsScalar42
      "/sys/fs/cgroup/memory/docker/c/memory.usage_in_bytes" = some 42 :=
  (read_cgroup_file_contract fsScalar42
      "/sys/fs/cgroup/memory/docker/c/memory.usage_in_bytes").2.2.1
    " 42\n" 42 (by decide) (by decide) (by decide)

/-! ## C6: the version detector -/

/-- C6: the detector returns 2 exactly when the v2 probe file
`/sys/fs/cgroup/cgroup.controllers` exists and 1 otherwise; on every
filesystem state it returns one of exactly these two values and performs
only the read-only existence check. -/
theorem get_cgroup_version_contract (fs : FS) :
    (get_cgroup_version fs = 2 ↔
      fs.pathExists "/sys/fs/cgroup/cgroup.controllers" = true) ∧
    (get_cgroup_version fs = 1 ↔
      fs.pathExists "/sys/fs/cgroup/cgroup.controllers" = false) ∧
    (get_cgroup_version fs = 1 ∨ get_cgroup_version fs = 2) := by
  cases hb : fs.pathExists "/sys/fs/cgroup/cgroup.controllers" <;>
    simp [get_cgroup_version, hb]

/-! ## C7: one row per container, in order -/

/-- C7: the main loop produces exactly one record per input container, in
input order, each tagged with its container's name and its docker-style
12-character id prefix, holding that container's collected stats. -/
theorem buildRows_preserves_order_and_tags (fs : FS) (version : Nat)
    (cs : List ContainerRef) :
    (buildRows fs version cs).length = cs.length ∧
    ∀ (i : Nat) (c : ContainerRef), cs[i]? = some c →
      (buildRows fs version cs)[i]? =
        some (Row.mk c.name (String.mk (c.id.toList.take 12))
          (collectStats fs version c.id)) := by
  constructor
  · simp [buildRows]
  · intro i c hc
    simp [buildRows, List.getElem?_map, hc]

/-- Witness for C7: the two-container list yields two rows, the first
tagged `web` with the truncated id of the first container. -/
theorem buildRows_witness :
    (buildRows fsNone 1 csPair).length = 2 ∧
    (buildRows fsNone 1 csPair)[0]? =
      some (Row.mk "web" "abc123def456"
        (collectStats fsNone 1 "abc123def456789")) := by
  have h := buildRows_preserves_order_and_tags fsNone 1 csPair
  exact ⟨h.1.trans (by decide),
    (h.2 0 ⟨"abc123def456789", "web"⟩ (by decide)).trans (by decide)⟩

/-! ## C8: determinism of the presence pattern -/

/-- C8: two consecutive invocations of the collector for the same container
on an unchanged filesystem produce records with identical present/absent
patterns on every field. -/
theorem collect_presence_idempotent (fsAt : Nat → FS) (version : Nat)
    (cid : String) (t : Nat) (h : fsAt (t + 1) = fsAt t) :
    presenceShape (collectStats (fsAt t) version cid) =
      presenceShape (collectStats (fsAt (t + 1)) version cid) := by
  rw [h]

/-- Witness for C8: consecutive calls on a constant filesystem history. -/
theorem collect_presence_idempotent_witness :
    presenceShape (collectStats fsNone 1 "c") =
      presenceShape (collectStats fsNone 1 "c") :=
  collect_presence_idempotent (fun _ => fsNone) 1 "c" 0 rfl

/-! ## C10: signed numerals are accepted -/

/-- C10: `read_cgroup_file` accepts signed numerals — content `-5` yields a
present negative value, so the returned scalar is not constrained to be
non-negative. -/
theorem read_cgroup_file_accepts_negative :
    read_cgroup_file fsNegScalar
      "/sys/fs/cgroup/memory/docker/c/memory.usage_in_bytes" = some (-5) ∧
    (-5 : Int) < 0 :=
  ⟨by decide, by decide⟩
